import Mathlib

/-!
Shallow embedding of the aiotradier repository (src/aiotradier/tradier_rest.py,
src/aiotradier/exceptions.py, src/aiotradier/const.py): the request executor
TradierAPIAdapter._api_request, the endpoint catalog, the exception hierarchy,
and the raw-response cache.  External collaborators (aiohttp, json.loads) are
modelled as inputs: the HTTP round trip outcome is a value of HttpResult and
the JSON decoder is a parameter of type String to Option Json.
-/

/-- Untyped JSON documents, as returned by json.loads.  A number is modelled
as a mantissa and a count of decimal fraction digits: num m e denotes
m times 10 to the minus e (so 150.0 is num 1500 1). -/
inductive Json where
  | null : Json
  | bool : Bool → Json
  | num : Int → Nat → Json
  | str : String → Json
  | arr : List Json → Json
  | obj : List (String × Json) → Json

/-- Value of one query parameter as built by the Python code.  Every parameter
is a string except one: api_get_account_history line 169 assigns a one-element
tuple (end.strftime("%Y-%m-%d"),) because of a trailing comma, so the value
type distinguishes a plain string from a 1-tuple holding a string. -/
inductive ParamVal where
  | str : String → ParamVal
  | tupleOne : String → ParamVal
deriving DecidableEq, Repr

/-- Calendar date as Python datetime.date (year, month, day). -/
structure Date where
  year : Nat
  month : Nat
  day : Nat
deriving DecidableEq, Repr

/-- Zero-pad the decimal rendering of n to the given width, as strftime does. -/
def padZeros (width : Nat) (n : Nat) : String :=
  let s := toString n
  String.mk (List.replicate (width - s.length) '0') ++ s

/-- Python date.strftime("%Y-%m-%d"). -/
def Date.strftimeYmd (d : Date) : String :=
  padZeros 4 d.year ++ "-" ++ padZeros 2 d.month ++ "-" ++ padZeros 2 d.day

/-- Python str(b) for a bool, as produced by the f-string f"{greeks}". -/
def pyBoolStr : Bool → String
  | true => "True"
  | false => "False"

/-- Python truthiness of an int or None value (if page: ...). -/
def optIntTruthy : Option Int → Bool
  | none => false
  | some n => n != 0

/-- Python truthiness of a str or None value (if type_: ...). -/
def optStrTruthy : Option String → Bool
  | none => false
  | some s => s != ""

/-- Python truthiness of a date or None value: a date object is always truthy. -/
def optDateTruthy : Option Date → Bool
  | none => false
  | some _ => true

/- Constants from src/aiotradier/const.py. -/

def API_URL : String := "https://api.tradier.com"
def API_V1 : String := "v1"
def API_USER : String := "user"
def API_PROFILE : String := "profile"
def API_ACCOUNTS : String := "accounts"
def API_BALANCES : String := "balances"
def API_POSITIONS : String := "positions"
def API_MARKETS : String := "markets"
def API_QUOTES : String := "quotes"
def API_OPTIONS : String := "options"
def API_EXPIRATIONS : String := "expirations"
def API_STRIKES : String := "strikes"
def API_CHAINS : String := "chains"
def API_HISTORY : String := "history"
def API_CLOCK : String := "clock"
def HTTP_CALL_TIMEOUT : Nat := 45
def RAW_USER_PROFILE : String := "user_profile"
def RAW_BALANCES : String := "balances"
def RAW_POSITIONS : String := "positions"
def RAW_QUOTES : String := "quotes"
def RAW_EXPIRATIONS : String := "expirations"
def RAW_CHAINS : String := "chains"
def RAW_STRIKES : String := "strikes"
def RAW_ACCOUNT_HISTORY : String := "account_history"
def RAW_HISTORICAL_QUOTES : String := "historical_quotes"
def RAW_CLOCK : String := "clock"

/- Exception hierarchy from src/aiotradier/exceptions.py:
TradierError is the base; APIError and LoginError derive from TradierError;
AuthError derives from LoginError. -/

/-- Exception classes of the repository. -/
inductive ExcClass where
  | tradierError
  | apiError
  | loginError
  | authError
deriving DecidableEq, Repr

/-- Direct superclass of each exception class, per the class statements in
exceptions.py (TradierError extends Exception, outside the model). -/
def ExcClass.parent : ExcClass → Option ExcClass
  | .tradierError => none
  | .apiError => some .tradierError
  | .loginError => some .tradierError
  | .authError => some .loginError

/-- Fueled walk up the superclass chain. -/
def ExcClass.isSubclassOfAux : Nat → ExcClass → ExcClass → Bool
  | 0, _, _ => false
  | Nat.succ n, a, b =>
      a == b ||
        (match ExcClass.parent a with
          | some p => ExcClass.isSubclassOfAux n p b
          | none => false)

/-- Python issubclass on the modelled hierarchy (the chain has depth at
most three, so fuel 4 is exact). -/
def ExcClass.isSubclassOf (a b : ExcClass) : Bool :=
  ExcClass.isSubclassOfAux 4 a b

/-- Underlying cause wrapped by a raised exception: the aiohttp
ClientConnectorError, the aiohttp ClientResponseError carrying the HTTP
status, or the json.JSONDecodeError carrying the undecodable text. -/
inductive Cause where
  | clientConnectorError
  | clientResponseError : Nat → Cause
  | jsonDecodeError : String → Cause
deriving DecidableEq, Repr

/-- Exception raised by _api_request: its dynamic class and the underlying
cause passed to the constructor (raise Cls(err) from err). -/
structure RaisedExc where
  cls : ExcClass
  cause : Cause
deriving DecidableEq, Repr

/-- Outcome of the aiohttp round trip, as seen by _api_request with
raise_for_status=True: a connection-establishment failure
(ClientConnectorError), a non-2xx status (ClientResponseError), or a 2xx
response whose body text was read. -/
inductive HttpResult where
  | connError
  | respError : Nat → HttpResult
  | okText : String → HttpResult
deriving DecidableEq, Repr

/-- Session lifecycle events, tracking creation and closing of aiohttp
client sessions by their identifier. -/
inductive SessEvent where
  | create : Nat → SessEvent
  | close : Nat → SessEvent
deriving DecidableEq, Repr

/-- TradierAPIAdapter._api_request (tradier_rest.py lines 58-114), as a
function of the decoder (json.loads), the stored session of the adapter
(self.aiohttp_session, identified by a Nat when present), a fresh identifier
for a session the call would create, and the HTTP outcome.  Returns the
result (parsed document or raised exception) together with the session
events of the call.  If the adapter holds no session, a new one is created
at the start and the finally block closes it on every path; a stored
session is never closed.  Status 400 raises APIError, status 401 raises
AuthError, any other ClientResponseError raises TradierError, a
ClientConnectorError raises TradierError, and a JSONDecodeError (decoder
returning none) raises TradierError, each wrapping its cause. -/
def api_request (decode : String → Option Json) (session : Option Nat)
    (fresh : Nat) (http : HttpResult) :
    Except RaisedExc Json × List SessEvent :=
  let evs : List SessEvent :=
    match session with
    | none => [SessEvent.create fresh, SessEvent.close fresh]
    | some _ => []
  match http with
  | .connError => (.error ⟨.tradierError, .clientConnectorError⟩, evs)
  | .respError st =>
      if st = 400 then (.error ⟨.apiError, .clientResponseError st⟩, evs)
      else if st = 401 then (.error ⟨.authError, .clientResponseError st⟩, evs)
      else (.error ⟨.tradierError, .clientResponseError st⟩, evs)
  | .okText t =>
      match decode t with
      | some j => (.ok j, evs)
      | none => (.error ⟨.tradierError, .jsonDecodeError t⟩, evs)

/-- The raw response cache self._api_raw_data: a Python dict from cache key
to last decoded document, as an association list in insertion order. -/
abbrev Cache := List (String × Json)

/-- Python dict assignment d[k] = v: replace the value at an existing key in
place, else append the new binding. -/
def Cache.insert : Cache → String → Json → Cache
  | [], k, v => [(k, v)]
  | (k0, v0) :: rest, k, v =>
      if k0 = k then (k, v) :: rest
      else (k0, v0) :: Cache.insert rest k v

/-- Python dict lookup d.get(k). -/
def Cache.lookup : Cache → String → Option Json
  | [], _ => none
  | (k0, v0) :: rest, k => if k0 = k then some v0 else Cache.lookup rest k

/-- Request handed to the executor by an endpoint method: HTTP method, path
relative to the base URL and version prefix, the headers built inside
_api_request, the JSON payload (none for every GET operation), and the
query-parameter dict in insertion order (none when the method passes no
params argument). -/
structure SentRequest where
  method : String
  path : String
  headers : List (String × String)
  payload : Option Json
  params : Option (List (String × ParamVal))

/-- Result of one endpoint-method call: the request it sent, the outcome,
the raw-data cache after the call, and the session events. -/
structure OpResult where
  sent : SentRequest
  outcome : Except RaisedExc Json
  cache : Cache
  events : List SessEvent

/-- Lookup in a query-parameter list by name (first match). -/
def lookupParamList : List (String × ParamVal) → String → Option ParamVal
  | [], _ => none
  | (k0, v) :: rest, k => if k0 = k then some v else lookupParamList rest k

/-- Lookup one query parameter of a sent request by name. -/
def lookupParam (r : SentRequest) (k : String) : Option ParamVal :=
  match r.params with
  | none => none
  | some ps => lookupParamList ps k

/-- Common shape of every endpoint method: call _api_request with the
method, path and params, and on success write the decoded document into
self._api_raw_data under the fixed key of the method before returning it; on
failure propagate the exception and leave the cache untouched. -/
def runOp (decode : String → Option Json) (session : Option Nat)
    (fresh : Nat) (token : String) (cache : Cache) (key : String)
    (method : String) (path : String)
    (params : Option (List (String × ParamVal))) (http : HttpResult) :
    OpResult :=
  let sent : SentRequest :=
    { method := method, path := path,
      headers := [("Authorization", "Bearer " ++ token),
                  ("Accept", "application/json")],
      payload := none, params := params }
  match api_request decode session fresh http with
  | (.ok j, evs) => ⟨sent, .ok j, Cache.insert cache key j, evs⟩
  | (.error e, evs) => ⟨sent, .error e, cache, evs⟩

/-- TradierAPIAdapter.api_get_user_profile (lines 116-124). -/
def api_get_user_profile (decode : String → Option Json)
    (session : Option Nat) (fresh : Nat) (token : String) (cache : Cache)
    (http : HttpResult) : OpResult :=
  runOp decode session fresh token cache RAW_USER_PROFILE "GET"
    (API_USER ++ "/" ++ API_PROFILE) none http

/-- TradierAPIAdapter.api_get_balances (lines 126-133). -/
def api_get_balances (decode : String → Option Json) (session : Option Nat)
    (fresh : Nat) (token : String) (cache : Cache) (account_id : String)
    (http : HttpResult) : OpResult :=
  runOp decode session fresh token cache RAW_BALANCES "GET"
    (API_ACCOUNTS ++ "/" ++ account_id ++ "/" ++ API_BALANCES) none http

/-- TradierAPIAdapter.api_get_positions (lines 135-142). -/
def api_get_positions (decode : String → Option Json) (session : Option Nat)
    (fresh : Nat) (token : String) (cache : Cache) (account_id : String)
    (http : HttpResult) : OpResult :=
  runOp decode session fresh token cache RAW_POSITIONS "GET"
    (API_ACCOUNTS ++ "/" ++ account_id ++ "/" ++ API_POSITIONS) none http

/-- Query parameters built by api_get_account_history (lines 157-173):
account_id unconditionally, then each optional argument gated on its Python
truthiness.  Line 161 assigns the literal string "f{page}" (a missing
f-prefix on the intended f-string), and line 169 assigns a one-element
tuple for the end date (a trailing comma). -/
def accountHistoryParams (account_id : String) (page : Option Int)
    (limit : Option Int) (type_ : Option String) (start : Option Date)
    (end_ : Option Date) (symbol : Option String) (exact_match : Bool) :
    List (String × ParamVal) :=
  [("account_id", ParamVal.str account_id)]
    ++ (if optIntTruthy page then [("page", ParamVal.str "f{page}")] else [])
    ++ (match limit with
        | some n => if n != 0 then [("limit", ParamVal.str (toString n))] else []
        | none => [])
    ++ (match type_ with
        | some s => if s != "" then [("type_", ParamVal.str s)] else []
        | none => [])
    ++ (match start with
        | some d => [("start", ParamVal.str d.strftimeYmd)]
        | none => [])
    ++ (match end_ with
        | some d => [("end", ParamVal.tupleOne d.strftimeYmd)]
        | none => [])
    ++ (match symbol with
        | some s => if s != "" then [("symbol", ParamVal.str s)] else []
        | none => [])
    ++ (if exact_match then [("exact_match", ParamVal.str (pyBoolStr exact_match))] else [])

/-- TradierAPIAdapter.api_get_account_history (lines 144-180).  The end
argument is named end_ because end is a Lean keyword. -/
def api_get_account_history (decode : String → Option Json)
    (session : Option Nat) (fresh : Nat) (token : String) (cache : Cache)
    (account_id : String) (page : Option Int) (limit : Option Int)
    (type_ : Option String) (start : Option Date) (end_ : Option Date)
    (symbol : Option String) (exact_match : Bool) (http : HttpResult) :
    OpResult :=
  runOp decode session fresh token cache RAW_ACCOUNT_HISTORY "GET"
    (API_ACCOUNTS ++ "/" ++ account_id ++ "/" ++ API_HISTORY)
    (some (accountHistoryParams account_id page limit type_ start end_
      symbol exact_match)) http

/-- TradierAPIAdapter.api_get_quotes (lines 182-192): symbols are joined
with commas and the greeks flag is always sent as str(greeks). -/
def api_get_quotes (decode : String → Option Json) (session : Option Nat)
    (fresh : Nat) (token : String) (cache : Cache) (symbols : List String)
    (greeks : Bool) (http : HttpResult) : OpResult :=
  runOp decode session fresh token cache RAW_QUOTES "GET"
    (API_MARKETS ++ "/" ++ API_QUOTES)
    (some [("symbols", ParamVal.str (String.intercalate "," symbols)),
           ("greeks", ParamVal.str (pyBoolStr greeks))]) http

/-- TradierAPIAdapter.api_get_option_expirations (lines 194-216): the four
boolean flags are always sent, serialized as str(flag). -/
def api_get_option_expirations (decode : String → Option Json)
    (session : Option Nat) (fresh : Nat) (token : String) (cache : Cache)
    (symbol : String) (include_all_roots : Bool) (strikes : Bool)
    (contract_size : Bool) (expiration_type : Bool) (http : HttpResult) :
    OpResult :=
  runOp decode session fresh token cache RAW_EXPIRATIONS "GET"
    (API_MARKETS ++ "/" ++ API_OPTIONS ++ "/" ++ API_EXPIRATIONS)
    (some [("symbol", ParamVal.str symbol),
           ("includeAllRoots", ParamVal.str (pyBoolStr include_all_roots)),
           ("strikes", ParamVal.str (pyBoolStr strikes)),
           ("contractSize", ParamVal.str (pyBoolStr contract_size)),
           ("expirationType", ParamVal.str (pyBoolStr expiration_type))]) http

/-- TradierAPIAdapter.api_get_option_strikes (lines 218-234). -/
def api_get_option_strikes (decode : String → Option Json)
    (session : Option Nat) (fresh : Nat) (token : String) (cache : Cache)
    (symbol : String) (expiration : Date) (http : HttpResult) : OpResult :=
  runOp decode session fresh token cache RAW_STRIKES "GET"
    (API_MARKETS ++ "/" ++ API_OPTIONS ++ "/" ++ API_STRIKES)
    (some [("symbol", ParamVal.str symbol),
           ("expiration", ParamVal.str expiration.strftimeYmd)]) http

/-- TradierAPIAdapter.api_get_option_chains (lines 236-251). -/
def api_get_option_chains (decode : String → Option Json)
    (session : Option Nat) (fresh : Nat) (token : String) (cache : Cache)
    (symbol : String) (expiration : Date) (greeks : Bool)
    (http : HttpResult) : OpResult :=
  runOp decode session fresh token cache RAW_CHAINS "GET"
    (API_MARKETS ++ "/" ++ API_OPTIONS ++ "/" ++ API_CHAINS)
    (some [("symbol", ParamVal.str symbol),
           ("expiration", ParamVal.str expiration.strftimeYmd),
           ("greeks", ParamVal.str (pyBoolStr greeks))]) http

/-- Query parameters built by api_get_historical_quotes (lines 266-274). -/
def historicalQuotesParams (symbol : String) (interval : Option String)
    (start : Option Date) (end_ : Option Date)
    (session_filter : Option String) : List (String × ParamVal) :=
  [("symbol", ParamVal.str symbol)]
    ++ (match interval with
        | some s => if s != "" then [("interval", ParamVal.str s)] else []
        | none => [])
    ++ (match start with
        | some d => [("start", ParamVal.str d.strftimeYmd)]
        | none => [])
    ++ (match end_ with
        | some d => [("end", ParamVal.str d.strftimeYmd)]
        | none => [])
    ++ (match session_filter with
        | some s => if s != "" then [("session_filter", ParamVal.str s)] else []
        | none => [])

/-- TradierAPIAdapter.api_get_historical_quotes (lines 253-281). -/
def api_get_historical_quotes (decode : String → Option Json)
    (session : Option Nat) (fresh : Nat) (token : String) (cache : Cache)
    (symbol : String) (interval : Option String) (start : Option Date)
    (end_ : Option Date) (session_filter : Option String)
    (http : HttpResult) : OpResult :=
  runOp decode session fresh token cache RAW_HISTORICAL_QUOTES "GET"
    (API_MARKETS ++ "/" ++ API_HISTORY)
    (some (historicalQuotesParams symbol interval start end_ session_filter))
    http

/-- TradierAPIAdapter.api_get_clock (lines 283-296). -/
def api_get_clock (decode : String → Option Json) (session : Option Nat)
    (fresh : Nat) (token : String) (cache : Cache) (delayed : Bool)
    (http : HttpResult) : OpResult :=
  runOp decode session fresh token cache RAW_CLOCK "GET"
    (API_MARKETS ++ "/" ++ API_CLOCK)
    (some [("delayed", ParamVal.str (pyBoolStr delayed))]) http

/-- One endpoint-method invocation of the adapter, with the arguments of the
corresponding Python method (end renamed end_, a Lean keyword). -/
inductive OpCall where
  | getUserProfile
  | getBalances (account_id : String)
  | getPositions (account_id : String)
  | getAccountHistory (account_id : String) (page : Option Int)
      (limit : Option Int) (type_ : Option String) (start : Option Date)
      (end_ : Option Date) (symbol : Option String) (exact_match : Bool)
  | getQuotes (symbols : List String) (greeks : Bool)
  | getOptionExpirations (symbol : String) (include_all_roots : Bool)
      (strikes : Bool) (contract_size : Bool) (expiration_type : Bool)
  | getOptionStrikes (symbol : String) (expiration : Date)
  | getOptionChains (symbol : String) (expiration : Date) (greeks : Bool)
  | getHistoricalQuotes (symbol : String) (interval : Option String)
      (start : Option Date) (end_ : Option Date)
      (session_filter : Option String)
  | getClock (delayed : Bool)

/-- Fixed raw-data cache key written by each endpoint method. -/
def OpCall.cacheKey : OpCall → String
  | .getUserProfile => RAW_USER_PROFILE
  | .getBalances _ => RAW_BALANCES
  | .getPositions _ => RAW_POSITIONS
  | .getAccountHistory _ _ _ _ _ _ _ _ => RAW_ACCOUNT_HISTORY
  | .getQuotes _ _ => RAW_QUOTES
  | .getOptionExpirations _ _ _ _ _ => RAW_EXPIRATIONS
  | .getOptionStrikes _ _ => RAW_STRIKES
  | .getOptionChains _ _ _ => RAW_CHAINS
  | .getHistoricalQuotes _ _ _ _ _ => RAW_HISTORICAL_QUOTES
  | .getClock _ => RAW_CLOCK

/-- Dispatch one invocation to its endpoint method. -/
def runCall (decode : String → Option Json) (session : Option Nat)
    (fresh : Nat) (token : String) (cache : Cache) (c : OpCall)
    (http : HttpResult) : OpResult :=
  match c with
  | .getUserProfile =>
      api_get_user_profile decode session fresh token cache http
  | .getBalances aid =>
      api_get_balances decode session fresh token cache aid http
  | .getPositions aid =>
      api_get_positions decode session fresh token cache aid http
  | .getAccountHistory aid page limit type_ start end_ symbol em =>
      api_get_account_history decode session fresh token cache aid page
        limit type_ start end_ symbol em http
  | .getQuotes symbols greeks =>
      api_get_quotes decode session fresh token cache symbols greeks http
  | .getOptionExpirations s r k z t =>
      api_get_option_expirations decode session fresh token cache s r k z t
        http
  | .getOptionStrikes s e =>
      api_get_option_strikes decode session fresh token cache s e http
  | .getOptionChains s e g =>
      api_get_option_chains decode session fresh token cache s e g http
  | .getHistoricalQuotes s i a b f =>
      api_get_historical_quotes decode session fresh token cache s i a b f
        http
  | .getClock d =>
      api_get_clock decode session fresh token cache d http

/-- Run a sequence of invocations with their HTTP outcomes, threading the
cache through and concatenating the session events of each call; each call
that would create a session gets a distinct fresh identifier. -/
def runSeq (decode : String → Option Json) (session : Option Nat)
    (fresh : Nat) (cache : Cache) (token : String) :
    List (OpCall × HttpResult) → Cache × List SessEvent
  | [] => (cache, [])
  | (c, h) :: rest =>
      let r := runCall decode session fresh token cache c h
      let rec0 := runSeq decode session (fresh + 1) r.cache token rest
      (rec0.fst, r.events ++ rec0.snd)

/-- Projection needed by several session claims: a session event is a close. -/
def SessEvent.isCloseEvent : SessEvent → Bool
  | .close _ => true
  | .create _ => false

/-- Projection needed by several session claims: a session event is a create. -/
def SessEvent.isCreateEvent : SessEvent → Bool
  | .create _ => true
  | .close _ => false

/-- Decoder that fails on every text, used as a concrete json.loads
instantiation in witnesses. -/
def noDecoder : String → Option Json := fun _ => none

/-- Session events of _api_request: a create and a close of the fresh
session in ephemeral mode, none in borrowed mode, on every path. -/
theorem api_request_snd (decode : String → Option Json)
    (session : Option Nat) (fresh : Nat) (http : HttpResult) :
    (api_request decode session fresh http).snd =
      (match session with
       | none => [SessEvent.create fresh, SessEvent.close fresh]
       | some _ => []) := by
  cases http with
  | connError => cases session <;> rfl
  | respError st =>
      by_cases h4 : st = 400
      · cases session <;> simp [api_request, h4]
      · by_cases h1 : st = 401
        · cases session <;> simp [api_request, h4, h1]
        · cases session <;> simp [api_request, h4, h1]
  | okText t =>
      cases hd : decode t <;> cases session <;> simp [api_request, hd]

/-- Outcome of _api_request on a connection failure. -/
theorem api_request_fst_conn (decode : String → Option Json)
    (session : Option Nat) (fresh : Nat) :
    (api_request decode session fresh .connError).fst =
      .error ⟨.tradierError, .clientConnectorError⟩ := by
  cases session <;> rfl

/-- Outcome of _api_request on a non-2xx status. -/
theorem api_request_fst_resp (decode : String → Option Json)
    (session : Option Nat) (fresh : Nat) (st : Nat) :
    (api_request decode session fresh (.respError st)).fst =
      .error (if st = 400 then ⟨.apiError, .clientResponseError st⟩
              else if st = 401 then ⟨.authError, .clientResponseError st⟩
              else ⟨.tradierError, .clientResponseError st⟩) := by
  by_cases h4 : st = 400
  · cases session <;> simp [api_request, h4]
  · by_cases h1 : st = 401
    · cases session <;> simp [api_request, h4, h1]
    · cases session <;> simp [api_request, h4, h1]

/-- Outcome of _api_request on a 2xx response with body text t. -/
theorem api_request_fst_ok (decode : String → Option Json)
    (session : Option Nat) (fresh : Nat) (t : String) :
    (api_request decode session fresh (.okText t)).fst =
      (match decode t with
       | some j => .ok j
       | none => .error ⟨.tradierError, .jsonDecodeError t⟩) := by
  cases hd : decode t <;> cases session <;> simp [api_request, hd]

/-- Request built by runOp, independent of the HTTP outcome. -/
theorem runOp_sent (decode : String → Option Json) (session : Option Nat)
    (fresh : Nat) (token : String) (cache : Cache) (key : String)
    (method : String) (path : String)
    (params : Option (List (String × ParamVal))) (http : HttpResult) :
    (runOp decode session fresh token cache key method path params
        http).sent =
      { method := method, path := path,
        headers := [("Authorization", "Bearer " ++ token),
                    ("Accept", "application/json")],
        payload := none, params := params } := by
  rcases hh : api_request decode session fresh http with ⟨out, evs⟩
  cases out <;> simp [runOp, hh]

/-- Outcome of runOp is the outcome of _api_request. -/
theorem runOp_outcome (decode : String → Option Json) (session : Option Nat)
    (fresh : Nat) (token : String) (cache : Cache) (key : String)
    (method : String) (path : String)
    (params : Option (List (String × ParamVal))) (http : HttpResult) :
    (runOp decode session fresh token cache key method path params
        http).outcome = (api_request decode session fresh http).fst := by
  rcases hh : api_request decode session fresh http with ⟨out, evs⟩
  cases out <;> simp [runOp, hh]

/-- Events of runOp are the events of _api_request. -/
theorem runOp_events (decode : String → Option Json) (session : Option Nat)
    (fresh : Nat) (token : String) (cache : Cache) (key : String)
    (method : String) (path : String)
    (params : Option (List (String × ParamVal))) (http : HttpResult) :
    (runOp decode session fresh token cache key method path params
        http).events = (api_request decode session fresh http).snd := by
  rcases hh : api_request decode session fresh http with ⟨out, evs⟩
  cases out <;> simp [runOp, hh]

/-- Cache after runOp: overwritten at the key on success, untouched on
failure. -/
theorem runOp_cache (decode : String → Option Json) (session : Option Nat)
    (fresh : Nat) (token : String) (cache : Cache) (key : String)
    (method : String) (path : String)
    (params : Option (List (String × ParamVal))) (http : HttpResult) :
    (runOp decode session fresh token cache key method path params
        http).cache =
      (match (api_request decode session fresh http).fst with
       | .ok j => Cache.insert cache key j
       | .error _ => cache) := by
  rcases hh : api_request decode session fresh http with ⟨out, evs⟩
  cases out <;> simp [runOp, hh]

/-- Outcome of any endpoint call is the outcome of _api_request. -/
theorem runCall_outcome (decode : String → Option Json)
    (session : Option Nat) (fresh : Nat) (token : String) (cache : Cache)
    (c : OpCall) (http : HttpResult) :
    (runCall decode session fresh token cache c http).outcome =
      (api_request decode session fresh http).fst := by
  cases c <;>
    simp only [runCall, api_get_user_profile, api_get_balances,
      api_get_positions, api_get_account_history, api_get_quotes,
      api_get_option_expirations, api_get_option_strikes,
      api_get_option_chains, api_get_historical_quotes, api_get_clock,
      runOp_outcome]

/-- Events of any endpoint call are the events of _api_request. -/
theorem runCall_events (decode : String → Option Json)
    (session : Option Nat) (fresh : Nat) (token : String) (cache : Cache)
    (c : OpCall) (http : HttpResult) :
    (runCall decode session fresh token cache c http).events =
      (api_request decode session fresh http).snd := by
  cases c <;>
    simp only [runCall, api_get_user_profile, api_get_balances,
      api_get_positions, api_get_account_history, api_get_quotes,
      api_get_option_expirations, api_get_option_strikes,
      api_get_option_chains, api_get_historical_quotes, api_get_clock,
      runOp_events]

/-- Cache after any endpoint call: overwritten at the fixed key of the call on
success, untouched on failure. -/
theorem runCall_cache (decode : String → Option Json)
    (session : Option Nat) (fresh : Nat) (token : String) (cache : Cache)
    (c : OpCall) (http : HttpResult) :
    (runCall decode session fresh token cache c http).cache =
      (match (api_request decode session fresh http).fst with
       | .ok j => Cache.insert cache c.cacheKey j
       | .error _ => cache) := by
  cases c <;>
    simp only [runCall, OpCall.cacheKey, api_get_user_profile,
      api_get_balances, api_get_positions, api_get_account_history,
      api_get_quotes, api_get_option_expirations, api_get_option_strikes,
      api_get_option_chains, api_get_historical_quotes, api_get_clock,
      runOp_cache]

/-- C1: for every operation, the error raised is determined by the failure
kind: HTTP 400 raises APIError, HTTP 401 raises AuthError (a subclass of
LoginError and not of APIError), any other non-2xx status raises
TradierError, a connection-establishment failure raises TradierError, and
a 2xx response whose body does not decode raises TradierError; in every
case the raised error wraps the underlying cause. -/
theorem c1_error_classification (decode : String → Option Json)
    (session : Option Nat) (fresh : Nat) (token : String) (cache : Cache)
    (c : OpCall) :
    ((runCall decode session fresh token cache c .connError).outcome
        = .error ⟨.tradierError, .clientConnectorError⟩)
    ∧ ((runCall decode session fresh token cache c (.respError 400)).outcome
        = .error ⟨.apiError, .clientResponseError 400⟩)
    ∧ ((runCall decode session fresh token cache c (.respError 401)).outcome
        = .error ⟨.authError, .clientResponseError 401⟩)
    ∧ (∀ st : Nat, st ≠ 400 → st ≠ 401 →
        (runCall decode session fresh token cache c (.respError st)).outcome
          = .error ⟨.tradierError, .clientResponseError st⟩)
    ∧ (∀ t : String, decode t = none →
        (runCall decode session fresh token cache c (.okText t)).outcome
          = .error ⟨.tradierError, .jsonDecodeError t⟩)
    ∧ ExcClass.isSubclassOf .apiError .tradierError = true
    ∧ ExcClass.isSubclassOf .authError .loginError = true
    ∧ ExcClass.isSubclassOf .authError .tradierError = true
    ∧ ExcClass.isSubclassOf .authError .apiError = false
    ∧ ExcClass.isSubclassOf .loginError .tradierError = true := by
  refine ⟨?_, ?_, ?_, ?_, ?_, by decide, by decide, by decide, by decide,
    by decide⟩
  · rw [runCall_outcome, api_request_fst_conn]
  · rw [runCall_outcome, api_request_fst_resp]
    simp
  · rw [runCall_outcome, api_request_fst_resp]
    simp
  · intro st h4 h1
    rw [runCall_outcome, api_request_fst_resp]
    simp [h4, h1]
  · intro t hd
    rw [runCall_outcome, api_request_fst_ok, hd]

/-- C1 witness: concrete instantiation discharging the hypotheses of the
status-classification and decode-failure conjuncts at status 500 and at a
decoder that rejects the text. -/
theorem c1_error_classification_witness :
    ((runCall noDecoder (some 7) 0 "tok" [] (.getClock false)
        (.respError 500)).outcome
      = .error ⟨.tradierError, .clientResponseError 500⟩)
    ∧ ((runCall noDecoder (some 7) 0 "tok" [] (.getClock false)
        (.okText "oops")).outcome
      = .error ⟨.tradierError, .jsonDecodeError "oops"⟩) := by
  have h := c1_error_classification noDecoder (some 7) 0 "tok" []
    (.getClock false)
  exact ⟨h.2.2.2.1 500 (by decide) (by decide), h.2.2.2.2.1 "oops" rfl⟩

/-- Document returned by the mock of the quotes scenario:
the parse of the body with quotes.quote.symbol AAPL and last 150.0. -/
def aaplQuotesDoc : Json :=
  Json.obj [("quotes", Json.obj [("quote",
    Json.obj [("symbol", Json.str "AAPL"), ("last", Json.num 1500 1)])])]

/-- Decoder mapping the scenario body text to the AAPL quotes document. -/
def aaplDecoder : String → Option Json :=
  fun t => if t = "aaplBody" then some aaplQuotesDoc else none

/-- C2: for every operation, a 2xx response whose body decodes to document
j returns j and overwrites the fixed cache key of the operation with exactly j
before returning. -/
theorem c2_success_returns_and_caches (decode : String → Option Json)
    (session : Option Nat) (fresh : Nat) (token : String) (cache : Cache)
    (c : OpCall) (t : String) (j : Json) (hdec : decode t = some j) :
    ((runCall decode session fresh token cache c (.okText t)).outcome
        = .ok j)
    ∧ ((runCall decode session fresh token cache c (.okText t)).cache
        = Cache.insert cache c.cacheKey j) := by
  constructor
  · rw [runCall_outcome, api_request_fst_ok, hdec]
  · rw [runCall_cache, api_request_fst_ok, hdec]

/-- C2 witness: the spec scenario api_get_quotes for AAPL without greeks
against a mock body decoding to the AAPL quotes document returns that
document and leaves cache key quotes equal to it. -/
theorem c2_success_returns_and_caches_witness :
    ((runCall aaplDecoder (some 1) 0 "tok" [] (.getQuotes ["AAPL"] false)
        (.okText "aaplBody")).outcome = .ok aaplQuotesDoc)
    ∧ (Cache.lookup (runCall aaplDecoder (some 1) 0 "tok" []
        (.getQuotes ["AAPL"] false) (.okText "aaplBody")).cache "quotes"
      = some aaplQuotesDoc) := by
  have h := c2_success_returns_and_caches aaplDecoder (some 1) 0 "tok" []
    (.getQuotes ["AAPL"] false) "aaplBody" aaplQuotesDoc rfl
  refine ⟨h.1, ?_⟩
  rw [h.2]
  rfl

/-- C3: for every operation, a failing call (connection failure, non-2xx
status, or JSON decode failure — any call whose outcome is an error)
leaves the raw response cache completely unchanged. -/
theorem c3_failure_preserves_cache (decode : String → Option Json)
    (session : Option Nat) (fresh : Nat) (token : String) (cache : Cache)
    (c : OpCall) (http : HttpResult) (e : RaisedExc)
    (herr : (runCall decode session fresh token cache c http).outcome
      = .error e) :
    (runCall decode session fresh token cache c http).cache = cache := by
  rw [runCall_outcome] at herr
  rw [runCall_cache, herr]

/-- C3 witness: a balances call failing with a connection error leaves a
pre-populated cache exactly as it was. -/
theorem c3_failure_preserves_cache_witness :
    (runCall noDecoder none 0 "tok" [("balances", Json.null)]
        (.getBalances "A1") .connError).cache
      = [("balances", Json.null)] := by
  exact c3_failure_preserves_cache noDecoder none 0 "tok"
    [("balances", Json.null)] (.getBalances "A1") .connError
    ⟨.tradierError, .clientConnectorError⟩ rfl

/-- C4: in ephemeral mode (adapter constructed without a session), every
call to any operation creates exactly one new session and closes exactly
that session exactly once, on every exit path (success, connection error,
HTTP status error, and JSON decode error alike). -/
theorem c4_ephemeral_session_lifecycle (decode : String → Option Json)
    (fresh : Nat) (token : String) (cache : Cache) (c : OpCall)
    (http : HttpResult) :
    ((runCall decode none fresh token cache c http).events
        = [SessEvent.create fresh, SessEvent.close fresh])
    ∧ (((runCall decode none fresh token cache c http).events.filter
          SessEvent.isCreateEvent).length = 1)
    ∧ (((runCall decode none fresh token cache c http).events.filter
          SessEvent.isCloseEvent).length = 1) := by
  have he : (runCall decode none fresh token cache c http).events
      = [SessEvent.create fresh, SessEvent.close fresh] := by
    rw [runCall_events, api_request_snd]
  exact ⟨he, by rw [he]; rfl, by rw [he]; rfl⟩

/-- C8: with a borrowed session (adapter constructed with a caller-supplied
session b), no sequence of operation calls — whatever their outcomes —
produces any session event, and in particular never a close of b. -/
theorem c8_borrowed_session_never_closed (decode : String → Option Json)
    (b : Nat) (fresh : Nat) (cache : Cache) (token : String)
    (calls : List (OpCall × HttpResult)) :
    ((runSeq decode (some b) fresh cache token calls).snd = [])
    ∧ (((runSeq decode (some b) fresh cache token calls).snd.filter
          SessEvent.isCloseEvent) = []) := by
  have he : ∀ (n : Nat) (cch : Cache) (cs : List (OpCall × HttpResult)),
      (runSeq decode (some b) n cch token cs).snd = [] := by
    intro n cch cs
    induction cs generalizing n cch with
    | nil => rfl
    | cons ch rest ih =>
        rcases ch with ⟨c, h⟩
        simp [runSeq, ih, runCall_events, api_request_snd]
  refine ⟨he fresh cache calls, ?_⟩
  rw [he fresh cache calls]
  rfl

/-- C5 evidence: the code at the failing input.  Calling
api_get_account_history with start 2024-06-20 and end 2024-06-21 sends
start as the plain string but end as a one-element tuple holding the
string (the trailing comma at tradier_rest.py line 169), while
api_get_option_strikes for AAPL at 2024-06-21 sends
expiration=2024-06-21 as a plain string, as the claim says. -/
theorem c5_end_param_is_tuple :
    (lookupParam (api_get_account_history noDecoder (some 1) 0 "tok" []
        "A1" none none none (some ⟨2024, 6, 20⟩) (some ⟨2024, 6, 21⟩) none
        false .connError).sent "end"
      = some (ParamVal.tupleOne "2024-06-21"))
    ∧ (lookupParam (api_get_account_history noDecoder (some 1) 0 "tok" []
        "A1" none none none (some ⟨2024, 6, 20⟩) (some ⟨2024, 6, 21⟩) none
        false .connError).sent "start"
      = some (ParamVal.str "2024-06-20"))
    ∧ (lookupParam (api_get_option_strikes noDecoder (some 1) 0 "tok" []
        "AAPL" ⟨2024, 6, 21⟩ .connError).sent "expiration"
      = some (ParamVal.str "2024-06-21"))
    ∧ (some (ParamVal.tupleOne "2024-06-21")
        ≠ some (ParamVal.str "2024-06-21")) := by
  refine ⟨rfl, rfl, rfl, by decide⟩

/-- C6 counterexample: api_get_quotes with greeks left at its default
False still sends a greeks query parameter (with value "False"), and
api_get_option_expirations with all four flags left False still sends
includeAllRoots — refuting the claim that a default argument produces no
query parameter. -/
theorem c6_default_flag_param_present :
    (lookupParam (api_get_quotes noDecoder (some 1) 0 "tok" [] ["AAPL"]
        false .connError).sent "greeks" = some (ParamVal.str "False"))
    ∧ (lookupParam (api_get_option_expirations noDecoder (some 1) 0 "tok"
        [] "AAPL" false false false false .connError).sent
        "includeAllRoots" = some (ParamVal.str "False")) :=
  ⟨rfl, rfl⟩

/-- C6 amended: only api_get_account_history and api_get_historical_quotes
gate their optional parameters on Python truthiness (a falsy argument
produces no parameter there); every other operation of the catalog sends a
fixed parameter list independent of argument values: api_get_quotes always
sends symbols and greeks, api_get_option_expirations always sends its four
boolean flags, api_get_option_chains always sends greeks, and api_get_clock
always sends delayed, each flag serialized "True"/"False" even when left at
its default False; api_get_option_strikes always sends its two required
parameters, and api_get_user_profile, api_get_balances and
api_get_positions pass no parameter mapping at all. -/
theorem c6_param_inclusion_amended (decode : String → Option Json)
    (session : Option Nat) (fresh : Nat) (token : String) (cache : Cache)
    (http : HttpResult) :
    (∀ (symbols : List String) (greeks : Bool),
        (api_get_quotes decode session fresh token cache symbols greeks
            http).sent.params
          = some [("symbols",
                    ParamVal.str (String.intercalate "," symbols)),
                  ("greeks", ParamVal.str (pyBoolStr greeks))])
    ∧ (∀ (sym : String) (r k z t : Bool),
        (api_get_option_expirations decode session fresh token cache sym
            r k z t http).sent.params
          = some [("symbol", ParamVal.str sym),
                  ("includeAllRoots", ParamVal.str (pyBoolStr r)),
                  ("strikes", ParamVal.str (pyBoolStr k)),
                  ("contractSize", ParamVal.str (pyBoolStr z)),
                  ("expirationType", ParamVal.str (pyBoolStr t))])
    ∧ (∀ aid : String,
        (api_get_account_history decode session fresh token cache aid
            none none none none none none false http).sent.params
          = some [("account_id", ParamVal.str aid)])
    ∧ (∀ aid : String,
        (api_get_account_history decode session fresh token cache aid
            (some 0) (some 0) (some "") none none (some "") false
            http).sent.params
          = some [("account_id", ParamVal.str aid)])
    ∧ (∀ sym : String,
        (api_get_historical_quotes decode session fresh token cache sym
            none none none none http).sent.params
          = some [("symbol", ParamVal.str sym)])
    ∧ (∀ sym : String,
        (api_get_historical_quotes decode session fresh token cache sym
            (some "") none none (some "") http).sent.params
          = some [("symbol", ParamVal.str sym)])
    ∧ (∀ (sym : String) (exp : Date) (greeks : Bool),
        (api_get_option_chains decode session fresh token cache sym exp
            greeks http).sent.params
          = some [("symbol", ParamVal.str sym),
                  ("expiration", ParamVal.str exp.strftimeYmd),
                  ("greeks", ParamVal.str (pyBoolStr greeks))])
    ∧ (∀ delayed : Bool,
        (api_get_clock decode session fresh token cache delayed
            http).sent.params
          = some [("delayed", ParamVal.str (pyBoolStr delayed))])
    ∧ (∀ (sym : String) (exp : Date),
        (api_get_option_strikes decode session fresh token cache sym exp
            http).sent.params
          = some [("symbol", ParamVal.str sym),
                  ("expiration", ParamVal.str exp.strftimeYmd)])
    ∧ ((api_get_user_profile decode session fresh token cache
          http).sent.params = none)
    ∧ (∀ aid : String,
        (api_get_balances decode session fresh token cache aid
            http).sent.params = none)
    ∧ (∀ aid : String,
        (api_get_positions decode session fresh token cache aid
            http).sent.params = none) := by
  refine ⟨?_, ?_, ?_, ?_, ?_, ?_, ?_, ?_, ?_, ?_, ?_, ?_⟩ <;>
    intros <;>
    simp [api_get_quotes, api_get_option_expirations,
      api_get_account_history, api_get_historical_quotes,
      api_get_option_chains, api_get_clock, api_get_option_strikes,
      api_get_user_profile, api_get_balances, api_get_positions,
      runOp_sent, accountHistoryParams, historicalQuotesParams,
      optIntTruthy]

/-- C7: api_get_account_history called with a non-zero page argument sends
the page query parameter as the literal template string "f{page}" (the
missing f-prefix at tradier_rest.py line 161), not the decimal rendering
of the page number. -/
theorem c7_page_param_literal (decode : String → Option Json)
    (session : Option Nat) (fresh : Nat) (token : String) (cache : Cache)
    (account_id : String) (page : Int) (hp : page ≠ 0) (limit : Option Int)
    (type_ : Option String) (start : Option Date) (end_ : Option Date)
    (symbol : Option String) (em : Bool) (http : HttpResult) :
    lookupParam (api_get_account_history decode session fresh token cache
        account_id (some page) limit type_ start end_ symbol em http).sent
        "page"
      = some (ParamVal.str "f{page}") := by
  have ht : optIntTruthy (some page) = true := by
    simp [optIntTruthy, hp]
  simp only [api_get_account_history, runOp_sent, lookupParam,
    accountHistoryParams, ht]
  simp [lookupParamList]

/-- C7 witness: page 3 yields the literal string "f{page}". -/
theorem c7_page_param_literal_witness :
    lookupParam (api_get_account_history noDecoder (some 1) 0 "tok" []
        "A1" (some 3) none none none none none false .connError).sent
        "page"
      = some (ParamVal.str "f{page}") :=
  c7_page_param_literal noDecoder (some 1) 0 "tok" [] "A1" 3 (by decide)
    none none none none none false .connError

/-- C9: calling api_get_account_history with page 0 or limit 0 sends the
same request as not supplying the argument at all: inclusion is decided by
truthiness, so the parameter is omitted entirely. -/
theorem c9_zero_page_limit_omitted (decode : String → Option Json)
    (session : Option Nat) (fresh : Nat) (token : String) (cache : Cache)
    (aid : String) (http : HttpResult) :
    ((api_get_account_history decode session fresh token cache aid
        (some 0) none none none none none false http).sent
      = (api_get_account_history decode session fresh token cache aid
        none none none none none none false http).sent)
    ∧ ((api_get_account_history decode session fresh token cache aid
        none (some 0) none none none none false http).sent
      = (api_get_account_history decode session fresh token cache aid
        none none none none none none false http).sent)
    ∧ (lookupParam (api_get_account_history decode session fresh token
        cache aid (some 0) none none none none none false http).sent
        "page" = none)
    ∧ (lookupParam (api_get_account_history decode session fresh token
        cache aid none (some 0) none none none none false http).sent
        "limit" = none) := by
  refine ⟨?_, ?_, ?_, ?_⟩ <;>
    simp [api_get_account_history, runOp_sent, accountHistoryParams,
      optIntTruthy, lookupParam, lookupParamList]

/-- C10: api_get_account_history sends the account identifier both in the
path accounts/{account_id}/history and unconditionally as the account_id
query parameter, while the other account-scoped operations
api_get_balances and api_get_positions place it only in the path and pass
no query parameters at all. -/
theorem c10_account_id_in_path_and_query (decode : String → Option Json)
    (session : Option Nat) (fresh : Nat) (token : String) (cache : Cache)
    (aid : String) (page : Option Int) (limit : Option Int)
    (type_ : Option String) (start : Option Date) (end_ : Option Date)
    (symbol : Option String) (em : Bool) (http : HttpResult) :
    ((api_get_account_history decode session fresh token cache aid page
        limit type_ start end_ symbol em http).sent.path
      = API_ACCOUNTS ++ "/" ++ aid ++ "/" ++ API_HISTORY)
    ∧ (lookupParam (api_get_account_history decode session fresh token
        cache aid page limit type_ start end_ symbol em http).sent
        "account_id" = some (ParamVal.str aid))
    ∧ ((api_get_balances decode session fresh token cache aid
        http).sent.path
      = API_ACCOUNTS ++ "/" ++ aid ++ "/" ++ API_BALANCES)
    ∧ ((api_get_balances decode session fresh token cache aid
        http).sent.params = none)
    ∧ ((api_get_positions decode session fresh token cache aid
        http).sent.path
      = API_ACCOUNTS ++ "/" ++ aid ++ "/" ++ API_POSITIONS)
    ∧ ((api_get_positions decode session fresh token cache aid
        http).sent.params = none) := by
  refine ⟨?_, ?_, ?_, ?_, ?_, ?_⟩ <;>
    simp [api_get_account_history, api_get_balances, api_get_positions,
      runOp_sent, accountHistoryParams, lookupParam, lookupParamList]
